import Mathlib

/-!
Shallow embedding of the Fleet Manager (FM) client of the
`dataiku-api-client-python` repository (files `dataikuapi/fmclient.py`,
`dataikuapi/fm/instances.py`, `dataikuapi/fm/instancesettingstemplates.py`),
together with theorems settling the frozen claims about it.

Python JSON-like values are modelled by the `Json` type below; a Python
`dict` that a builder accumulates is modelled by `JsonFields`, an ordered
association sequence with Python dict-assignment semantics (`dset`), since
Python dicts preserve insertion order and keys are unique.  Python
exceptions are modelled by `PyErr`; a method that can raise returns
`Except PyErr α`.  Each HTTP request actually issued is recorded in a
trace (`List HttpRequest`), and the remote server is modelled as a pure
function from requests to responses.
-/

mutual
/-- A Python value as it appears in JSON-ish request/response bodies:
`None`, booleans, numbers (modelled as integers), strings, lists, dicts. -/
inductive Json where
  | null
  | bool (b : Bool)
  | num (n : Int)
  | str (s : String)
  | arr (xs : JsonList)
  | obj (fields : JsonFields)
  deriving DecidableEq, Repr
/-- A list of `Json` values (spelled out so equality can be derived). -/
inductive JsonList where
  | nil
  | cons (hd : Json) (tl : JsonList)
  deriving DecidableEq, Repr
/-- An ordered association sequence of string keys to `Json` values,
modelling a Python dict (insertion ordered, unique keys). -/
inductive JsonFields where
  | nil
  | cons (k : String) (v : Json) (tl : JsonFields)
  deriving DecidableEq, Repr
end

/-- Python `d.get(k)` / `d[k]` lookup on a dict: the value bound to the
first (and, for a genuine dict, only) occurrence of key `k`. -/
def dlookup (k : String) : JsonFields → Option Json
  | .nil => none
  | .cons k' v tl => if k' = k then some v else dlookup k tl

/-- Python `d.get(k, default)`. -/
def dget (d : JsonFields) (k : String) (default : Json) : Json :=
  match dlookup k d with
  | some v => v
  | none => default

/-- Python `d[k] = v` dict assignment: overwrite in place if the key is
present (keeping its position), else append at the end. -/
def dset (d : JsonFields) (k : String) (v : Json) : JsonFields :=
  match d with
  | .nil => .cons k v .nil
  | .cons k' v' tl => if k' = k then .cons k v tl else .cons k' v' (dset tl k v)

/-- Apply a sequence of Python dict assignments in order. -/
def dsets (d : JsonFields) : List (String × Json) → JsonFields
  | [] => d
  | (k, v) :: rest => dsets (dset d k v) rest

/-- The keys of a dict, in order. -/
def dkeys : JsonFields → List String
  | .nil => []
  | .cons k _ tl => k :: dkeys tl

/-- Python `==` on two dicts: dicts are equal when they bind the same keys
to the same values; insertion order is ignored by dict equality. -/
def pyDictEq (d1 d2 : JsonFields) : Bool :=
  (dkeys d1).all (fun k => decide (dlookup k d1 = dlookup k d2)) &&
  (dkeys d2).all (fun k => decide (dlookup k d1 = dlookup k d2))

theorem dlookup_dset : ∀ (d : JsonFields) (k k' : String) (v : Json),
    dlookup k' (dset d k v) = if k = k' then some v else dlookup k' d
  | .nil, k, k', v => by
    simp only [dset, dlookup]
  | .cons a b tl, k, k', v => by
    simp only [dset]
    by_cases hak : a = k
    · subst hak
      simp only [if_pos rfl, dlookup]
      by_cases h : a = k' <;> simp [dlookup, h]
    · rw [if_neg hak]
      simp only [dlookup, dlookup_dset tl k k' v]
      by_cases hak' : a = k'
      · subst hak'
        rw [if_pos rfl, if_neg (fun h => hak h.symm), if_pos rfl]
      · rw [if_neg hak', if_neg hak']

/-- The last value a list of assignments writes to key `k`, if any. -/
def lastWrite (k : String) : List (String × Json) → Option Json
  | [] => none
  | (k', v) :: rest =>
    match lastWrite k rest with
    | some w => some w
    | none => if k' = k then some v else none

theorem dlookup_dsets (d : JsonFields) (as : List (String × Json)) (k : String) :
    dlookup k (dsets d as) =
      match lastWrite k as with
      | some w => some w
      | none => dlookup k d := by
  induction as generalizing d with
  | nil => simp [dsets, lastWrite]
  | cons a rest ih =>
    obtain ⟨k', v⟩ := a
    simp only [dsets, lastWrite, ih, dlookup_dset]
    cases h : lastWrite k rest with
    | some w => rfl
    | none =>
      by_cases hk : k' = k
      · subst hk
        simp
      · rw [if_neg hk, if_neg hk]

theorem lastWrite_eq_none_of_not_mem (k : String) (as : List (String × Json))
    (h : k ∉ as.map Prod.fst) : lastWrite k as = none := by
  induction as with
  | nil => rfl
  | cons a rest ih =>
    obtain ⟨k', v⟩ := a
    simp only [List.map, List.mem_cons] at h
    push_neg at h
    simp only [lastWrite, ih h.2, if_neg (fun hq : k' = k => h.1 hq.symm)]

/-- Two interleavings of assignment batches with disjoint key sets agree,
as dicts, on every key. -/
theorem dsets_comm_of_disjoint (d : JsonFields) (as bs : List (String × Json))
    (hdisj : ∀ k, k ∈ as.map Prod.fst → k ∉ bs.map Prod.fst) (k : String) :
    dlookup k (dsets (dsets d as) bs) = dlookup k (dsets (dsets d bs) as) := by
  rw [dlookup_dsets, dlookup_dsets, dlookup_dsets, dlookup_dsets]
  by_cases ha : k ∈ as.map Prod.fst
  · rw [lastWrite_eq_none_of_not_mem k bs (hdisj k ha)]
  · rw [lastWrite_eq_none_of_not_mem k as ha]

theorem pyDictEq_of_forall_dlookup (d1 d2 : JsonFields)
    (h : ∀ k, dlookup k d1 = dlookup k d2) : pyDictEq d1 d2 = true := by
  simp [pyDictEq, List.all_eq_true, h]

/-- A single-quote character (used by Python `repr` of strings). -/
def squote : String := String.singleton (Char.ofNat 39)

mutual
/-- Python `repr` of a JSON-ish value (escape sequences inside strings are
not reproduced; none of the values handled here contain them). -/
def pyRepr : Json → String
  | .null => "None"
  | .bool true => "True"
  | .bool false => "False"
  | .num n => toString n
  | .str s => squote ++ s ++ squote
  | .arr xs => "[" ++ pyReprList xs ++ "]"
  | .obj fs => "\x7b" ++ pyReprFields fs ++ "\x7d"
/-- Python `repr` of the elements of a list, comma separated. -/
def pyReprList : JsonList → String
  | .nil => ""
  | .cons j .nil => pyRepr j
  | .cons j tl => pyRepr j ++ ", " ++ pyReprList tl
/-- Python `repr` of the items of a dict, comma separated. -/
def pyReprFields : JsonFields → String
  | .nil => ""
  | .cons k v .nil => squote ++ k ++ squote ++ ": " ++ pyRepr v
  | .cons k v tl => squote ++ k ++ squote ++ ": " ++ pyRepr v ++ ", " ++ pyReprFields tl
end

/-- Python `str` (what `"%s" % x` interpolates): a string interpolates as
itself, anything else as its `repr`. -/
def pyStr : Json → String
  | .str s => s
  | j => pyRepr j

/-- Escape a string for a JSON text (backslash and double quote; control
characters do not occur in the values handled here). -/
def jsonEscape (s : String) : String :=
  String.join (s.toList.map fun c =>
    if c = '"' then "\\\"" else if c = '\\' then "\\\\" else String.singleton c)

mutual
/-- Python `json.dumps` with its default separators (`", "` and `": "`),
serializing a dict in insertion order. -/
def jsonDumps : Json → String
  | .null => "null"
  | .bool true => "true"
  | .bool false => "false"
  | .num n => toString n
  | .str s => "\"" ++ jsonEscape s ++ "\""
  | .arr xs => "[" ++ jsonDumpsList xs ++ "]"
  | .obj fs => "\x7b" ++ jsonDumpsFields fs ++ "\x7d"
/-- Serialize the elements of a JSON array. -/
def jsonDumpsList : JsonList → String
  | .nil => ""
  | .cons j .nil => jsonDumps j
  | .cons j tl => jsonDumps j ++ ", " ++ jsonDumpsList tl
/-- Serialize the items of a JSON object. -/
def jsonDumpsFields : JsonFields → String
  | .nil => ""
  | .cons k v .nil => "\"" ++ jsonEscape k ++ "\": " ++ jsonDumps v
  | .cons k v tl => "\"" ++ jsonEscape k ++ "\": " ++ jsonDumps v ++ ", " ++ jsonDumpsFields tl
end

/-- The Python exceptions the modelled code can raise.  `DataikuException`
is the domain error raised by `_perform_http`; the others are builtin
exceptions raised by the interpreter itself. -/
inductive PyErr where
  | dataikuException (msg : String)
  | attributeError (msg : String)
  | typeError (msg : String)
  | valueError (msg : String)
  | keyError (k : String)
  deriving DecidableEq, Repr

/-- One outbound HTTP request exactly as `Session.request` receives it in
`_perform_http`: method, full URL, query params, payload (`data`), files
and the stream flag. -/
structure HttpRequest where
  method : String
  url : String
  params : Option Json
  data : Option String
  files : Option Json
  stream : Bool
  deriving DecidableEq, Repr

/-- A server response: HTTP status, raw body text, and the result of
`response.json()` (`none` models the `ValueError` raised when the body is
not valid JSON). -/
structure HttpResponse where
  status : Nat
  text : String
  jsonBody : Option Json
  deriving DecidableEq, Repr

/-- The remote server, modelled as a pure map from requests to responses. -/
def Server : Type := HttpRequest → HttpResponse

/-- The FM API client state set up by `FMClient.__init__` (transport
session internals such as auth headers are carried as plain fields). -/
structure FMClient where
  host : String
  api_key_id : String
  api_key_secret : String
  cloud : String
  tenant_id : String
  deriving DecidableEq, Repr

/-- `FMClient.__init__(host, api_key_id, api_key_secret, cloud, tenant_id)`:
rejects a cloud other than "AWS"/"Azure" with ValueError, then rejects a
missing api key id or secret with ValueError (in that source order). -/
def FMClient.make (host : String) (api_key_id api_key_secret : Option String)
    (cloud : String) (tenant_id : String) : Except PyErr FMClient :=
  if cloud ∈ (["AWS", "Azure"] : List String) then
    match api_key_id, api_key_secret with
    | some kid, some ks =>
        .ok { host := host, api_key_id := kid, api_key_secret := ks,
              cloud := cloud, tenant_id := tenant_id }
    | _, _ => .error (.valueError "API Key ID and API Key secret are required")
  else .error (.valueError "cloud should be either \"AWS\" or \"Azure\"")

/-- `requests.Response.raise_for_status` raises `HTTPError` exactly for
4xx and 5xx status codes. -/
def raisesForStatus (status : Nat) : Bool := 400 ≤ status && status < 600

/-- The request `_perform_http(method, path, params, body, stream, files,
raw_body)` hands to `Session.request`: URL `{host}/api/public{path}`; the
payload is `json.dumps(body)` when `body` is not None, then overwritten by
`raw_body` when that is not None. -/
def FMClient.mkRequest (c : FMClient) (method path : String) (params : Option Json)
    (body : Option Json) (stream : Bool) (files : Option Json)
    (raw_body : Option String) : HttpRequest :=
  { method := method,
    url := c.host ++ "/api/public" ++ path,
    params := params,
    data := match raw_body with
            | some r => some r
            | none => body.map jsonDumps,
    files := files,
    stream := stream }

/-- What the `except HTTPError` branch of `_perform_http` raises:
`ex = http_res.json()` if the body parses, else `ex = {"message":
http_res.text}`; then `DataikuException("%s: %s" % (ex.get("errorType",
"Unknown error"), ex.get("message", "No message")))`.  When `ex` is a
parsed JSON value that is not a dict, `ex.get` itself raises
AttributeError. -/
def httpErrorOf (res : HttpResponse) : PyErr :=
  let ex : Json :=
    match res.jsonBody with
    | some j => j
    | none => .obj (.cons "message" (.str res.text) .nil)
  match ex with
  | .obj fields =>
      .dataikuException (pyStr (dget fields "errorType" (.str "Unknown error")) ++ ": " ++
        pyStr (dget fields "message" (.str "No message")))
  | _ => .attributeError "object has no attribute get"

/-- `FMClient._perform_http`: issue the single request, return the
response on success, raise on a 4xx/5xx status.  The second component is
the trace of requests actually sent (always exactly one). -/
def FMClient.perform_http (c : FMClient) (srv : Server) (method path : String)
    (params : Option Json) (body : Option Json) (stream : Bool)
    (files : Option Json) (raw_body : Option String) :
    Except PyErr HttpResponse × List HttpRequest :=
  let req := c.mkRequest method path params body stream files raw_body
  let res := srv req
  if raisesForStatus res.status then (.error (httpErrorOf res), [req])
  else (.ok res, [req])

/-- `FMClient._perform_empty`: perform and discard the response. -/
def FMClient.perform_empty (c : FMClient) (srv : Server) (method path : String)
    (params : Option Json) (body : Option Json) (files : Option Json)
    (raw_body : Option String) : Except PyErr Unit × List HttpRequest :=
  match c.perform_http srv method path params body false files raw_body with
  | (.ok _, t) => (.ok (), t)
  | (.error e, t) => (.error e, t)

/-- `FMClient._perform_json`: perform, then `.json()` the response (which
raises ValueError when the success body is not JSON). -/
def FMClient.perform_json (c : FMClient) (srv : Server) (method path : String)
    (params : Option Json) (body : Option Json) (files : Option Json)
    (raw_body : Option String) : Except PyErr Json × List HttpRequest :=
  match c.perform_http srv method path params body false files raw_body with
  | (.ok res, t) =>
      (match res.jsonBody with
       | some j => (.ok j, t)
       | none => (.error (.valueError "No JSON object could be decoded"), t))
  | (.error e, t) => (.error e, t)

/-- `FMClient._perform_tenant_json`: delegate to `_perform_json` with the
path prefixed by `/tenants/{tenant_id}`. -/
def FMClient.perform_tenant_json (c : FMClient) (srv : Server) (method path : String)
    (params : Option Json) (body : Option Json) (files : Option Json)
    (raw_body : Option String) : Except PyErr Json × List HttpRequest :=
  c.perform_json srv method ("/tenants/" ++ c.tenant_id ++ path) params body files raw_body

/-- `FMClient._perform_tenant_empty`: delegate to `_perform_empty` with
the path prefixed by `/tenants/{tenant_id}`. -/
def FMClient.perform_tenant_empty (c : FMClient) (srv : Server) (method path : String)
    (params : Option Json) (body : Option Json) (files : Option Json)
    (raw_body : Option String) : Except PyErr Unit × List HttpRequest :=
  c.perform_empty srv method ("/tenants/" ++ c.tenant_id ++ path) params body files raw_body

/-- `FMInstanceEncryptionMode`, the enum mirroring the server constants. -/
inductive FMInstanceEncryptionMode where
  | NONE
  | DEFAULT_KEY
  | TENANT
  | CUSTOM
  deriving DecidableEq, Repr

/-- The `.value` wire string of an `FMInstanceEncryptionMode` member. -/
def FMInstanceEncryptionMode.value : FMInstanceEncryptionMode → String
  | .NONE => "NONE"
  | .DEFAULT_KEY => "DEFAULT_KEY"
  | .TENANT => "TENANT"
  | .CUSTOM => "CUSTOM"

/-- Python subscript `j[k]`: KeyError on a dict missing the key,
TypeError on a non-dict. -/
def jsonGetItem (j : Json) (k : String) : Except PyErr Json :=
  match j with
  | .obj fs =>
      match dlookup k fs with
      | some v => .ok v
      | none => .error (.keyError k)
  | _ => .error (.typeError "object is not subscriptable")

/-- Python subscript assignment `j[k] = v`: TypeError on a non-dict. -/
def jsonSetItem (j : Json) (k : String) (v : Json) : Except PyErr Json :=
  match j with
  | .obj fs => .ok (.obj (dset fs k v))
  | _ => .error (.typeError "object does not support item assignment")

/-- Modelled from the spec: `FMFuture` (file `dataikuapi/fm/future.py` is
not part of the excerpt; only its callers are).  Per spec sections 2 and
4.4, an action's response envelope is wrapped into a future handle holding
the client and the job payload; constructing it performs no HTTP request
(polling happens only in the wait operation, which no claim exercises). -/
structure FMFuture where
  client : FMClient
  job_data : Json
  deriving DecidableEq, Repr

/-- Modelled from the spec: `FMFuture.from_resp(client, resp)` wraps an
action response envelope into a future without any HTTP traffic. -/
def FMFuture.from_resp (client : FMClient) (resp : Json) : FMFuture :=
  { client := client, job_data := resp }

/-- A handle to a DSS instance: the client, the local JSON snapshot
`instance_data`, and the `id` captured from the snapshot at construction. -/
structure FMInstance where
  client : FMClient
  instance_data : Json
  id : Json
  deriving DecidableEq, Repr

/-- `FMInstance.__init__(client, instance_data)`: store the client and
snapshot and read `instance_data["id"]`. -/
def FMInstance.init (client : FMClient) (instance_data : Json) :
    Except PyErr FMInstance :=
  match jsonGetItem instance_data "id" with
  | .ok i => .ok { client := client, instance_data := instance_data, id := i }
  | .error e => .error e

/-- `FMInstance.reprovision`: one tenant GET of
`/instances/{id}/actions/reprovision`, wrapped into a future. -/
def FMInstance.reprovision (i : FMInstance) (srv : Server) :
    Except PyErr FMFuture × List HttpRequest :=
  match i.client.perform_tenant_json srv "GET"
      ("/instances/" ++ pyStr i.id ++ "/actions/reprovision") none none none none with
  | (.ok j, t) => (.ok (FMFuture.from_resp i.client j), t)
  | (.error e, t) => (.error e, t)

/-- `FMInstance.deprovision`: one tenant GET of
`/instances/{id}/actions/deprovision`, wrapped into a future. -/
def FMInstance.deprovision (i : FMInstance) (srv : Server) :
    Except PyErr FMFuture × List HttpRequest :=
  match i.client.perform_tenant_json srv "GET"
      ("/instances/" ++ pyStr i.id ++ "/actions/deprovision") none none none none with
  | (.ok j, t) => (.ok (FMFuture.from_resp i.client j), t)
  | (.error e, t) => (.error e, t)

/-- `FMInstance.restart_dss`: one tenant GET of
`/instances/{id}/actions/restart-dss`, wrapped into a future. -/
def FMInstance.restart_dss (i : FMInstance) (srv : Server) :
    Except PyErr FMFuture × List HttpRequest :=
  match i.client.perform_tenant_json srv "GET"
      ("/instances/" ++ pyStr i.id ++ "/actions/restart-dss") none none none none with
  | (.ok j, t) => (.ok (FMFuture.from_resp i.client j), t)
  | (.error e, t) => (.error e, t)

/-- `FMInstance.delete`: one tenant GET of
`/instances/{id}/actions/delete`, wrapped into a future. -/
def FMInstance.delete (i : FMInstance) (srv : Server) :
    Except PyErr FMFuture × List HttpRequest :=
  match i.client.perform_tenant_json srv "GET"
      ("/instances/" ++ pyStr i.id ++ "/actions/delete") none none none none with
  | (.ok j, t) => (.ok (FMFuture.from_resp i.client j), t)
  | (.error e, t) => (.error e, t)

/-- `FMInstance.save`: tenant PUT of the current `instance_data` to
`/instances/{id}`, then tenant GET of the same path, storing the GET
response as the new `instance_data` (the Lean value returned stands for
the mutated Python object). -/
def FMInstance.save (i : FMInstance) (srv : Server) :
    Except PyErr FMInstance × List HttpRequest :=
  match i.client.perform_tenant_empty srv "PUT" ("/instances/" ++ pyStr i.id)
      none (some i.instance_data) none none with
  | (.error e, t) => (.error e, t)
  | (.ok _, t1) =>
      match i.client.perform_tenant_json srv "GET" ("/instances/" ++ pyStr i.id)
          none none none none with
      | (.error e, t2) => (.error e, t1 ++ t2)
      | (.ok j, t2) => (.ok { i with instance_data := j }, t1 ++ t2)

/-- `FMInstance.set_automated_snapshots(enable, period, keep)`: three dict
assignments on `instance_data` followed by `save()`. -/
def FMInstance.set_automated_snapshots (i : FMInstance) (srv : Server)
    (enable period keep : Json) : Except PyErr FMInstance × List HttpRequest :=
  match jsonSetItem i.instance_data "enableAutomatedSnapshot" enable with
  | .error e => (.error e, [])
  | .ok d1 =>
      match jsonSetItem d1 "automatedSnapshotPeriod" period with
      | .error e => (.error e, [])
      | .ok d2 =>
          match jsonSetItem d2 "automatedSnapshotRetention" keep with
          | .error e => (.error e, [])
          | .ok d3 => FMInstance.save { i with instance_data := d3 } srv

/-- `FMInstance.set_custom_certificate(pem_data)`: one dict assignment on
`instance_data` followed by `save()`. -/
def FMInstance.set_custom_certificate (i : FMInstance) (srv : Server)
    (pem_data : Json) : Except PyErr FMInstance × List HttpRequest :=
  match jsonSetItem i.instance_data "sslCertificatePEM" pem_data with
  | .error e => (.error e, [])
  | .ok d1 => FMInstance.save { i with instance_data := d1 } srv

/-- `FMAWSInstance.set_elastic_ip(enable, elasticip_allocation_id)`: two
dict assignments on `instance_data` followed by `save()`. -/
def FMAWSInstance.set_elastic_ip (i : FMInstance) (srv : Server)
    (enable elasticip_allocation_id : Json) :
    Except PyErr FMInstance × List HttpRequest :=
  match jsonSetItem i.instance_data "awsAssignElasticIP" enable with
  | .error e => (.error e, [])
  | .ok d1 =>
      match jsonSetItem d1 "awsElasticIPAllocationId" elasticip_allocation_id with
      | .error e => (.error e, [])
      | .ok d2 => FMInstance.save { i with instance_data := d2 } srv

/-- `FMAzureInstance.set_elastic_ip(enable, public_ip_id)`: two dict
assignments on `instance_data` followed by `save()`. -/
def FMAzureInstance.set_elastic_ip (i : FMInstance) (srv : Server)
    (enable public_ip_id : Json) : Except PyErr FMInstance × List HttpRequest :=
  match jsonSetItem i.instance_data "azureAssignElasticIP" enable with
  | .error e => (.error e, [])
  | .ok d1 =>
      match jsonSetItem d1 "azurePublicIPId" public_ip_id with
      | .error e => (.error e, [])
      | .ok d2 => FMInstance.save { i with instance_data := d2 } srv

/-- Convert a modelled JSON array to a Lean list. -/
def JsonList.toList : JsonList → List Json
  | .nil => []
  | .cons j tl => j :: JsonList.toList tl

/-- Python `**x` argument expansion: `x` must be a mapping. -/
def kwargsOf (j : Json) : Except PyErr JsonFields :=
  match j with
  | .obj fs => .ok fs
  | _ => .error (.typeError "argument after ** must be a mapping")

/-- The call `FMInstance(self, **x)` appearing in `list_instances`: the
expanded keywords must bind exactly the single remaining parameter
`instance_data` of `FMInstance.__init__`; any other keyword raises
TypeError (unexpected keyword argument), and a call that leaves
`instance_data` unbound raises TypeError (missing required argument). -/
def FMInstance.initKwargs (client : FMClient) (kwargs : JsonFields) :
    Except PyErr FMInstance :=
  if (dkeys kwargs).all (fun k => k == "instance_data") then
    match dlookup "instance_data" kwargs with
    | some d => FMInstance.init client d
    | none => .error (.typeError "missing 1 required positional argument: instance_data")
  else .error (.typeError "got an unexpected keyword argument")

/-- The comprehension `[FMInstance(self, **x) for x in instances]`:
evaluated left to right, propagating the first exception raised. -/
def buildInstances (client : FMClient) : List Json → Except PyErr (List FMInstance)
  | [] => .ok []
  | x :: rest =>
      match kwargsOf x with
      | .error e => .error e
      | .ok fs =>
          match FMInstance.initKwargs client fs with
          | .error e => .error e
          | .ok i =>
              match buildInstances client rest with
              | .error e => .error e
              | .ok is => .ok (i :: is)

/-- `FMClient.list_instances`: tenant GET of `/instances`, then the
comprehension `[FMInstance(self, **x) for x in instances]`.  (Iterating a
non-list response raises TypeError; every claim only concerns list
responses.) -/
def FMClient.list_instances (c : FMClient) (srv : Server) :
    Except PyErr (List FMInstance) × List HttpRequest :=
  match c.perform_tenant_json srv "GET" "/instances" none none none none with
  | (.error e, t) => (.error e, t)
  | (.ok j, t) =>
      match j with
      | .arr xs => (buildInstances c xs.toList, t)
      | _ => (.error (.typeError "object is not a list of mappings"), t)

/-- `FMClient.get_instance(instance_id)`: tenant GET of
`/instances/{instance_id}`, then `FMInstance(self, instance)`. -/
def FMClient.get_instance (c : FMClient) (srv : Server) (instance_id : String) :
    Except PyErr FMInstance × List HttpRequest :=
  match c.perform_tenant_json srv "GET" ("/instances/" ++ instance_id)
      none none none none with
  | (.ok j, t) => (FMInstance.init c j, t)
  | (.error e, t) => (.error e, t)

/-- The common state of an instance creator (`FMInstanceCreator.__init__`):
the client and the accumulated `data` dict, which starts with the label,
template id, virtual network id, image id, and the default
`dssNodeType = "design"`. -/
structure InstanceCreatorState where
  client : FMClient
  data : JsonFields
  deriving DecidableEq, Repr

/-- The `data` dict right after `FMInstanceCreator.__init__`. -/
def FMInstanceCreator.initData (label instance_settings_template_id
    virtual_network_id image_id : Json) : JsonFields :=
  .cons "label" label (.cons "instanceSettingsTemplateId" instance_settings_template_id
    (.cons "virtualNetworkId" virtual_network_id (.cons "imageId" image_id
      (.cons "dssNodeType" (.str "design") .nil))))

/-- An instance creator: `FMAWSInstanceCreator` or `FMAzureInstanceCreator`. -/
inductive InstanceCreator where
  | aws (st : InstanceCreatorState)
  | azure (st : InstanceCreatorState)
  deriving DecidableEq, Repr

/-- `FMClient.new_instance_creator`: an AWS creator for an "AWS" client,
an Azure creator for an "Azure" client — and Python's implicit `None`
(modelled by `none`) for any other cloud string. -/
def FMClient.new_instance_creator (c : FMClient) (label
    instance_settings_template_id virtual_network_id image_id : Json) :
    Option InstanceCreator :=
  let st : InstanceCreatorState :=
    { client := c,
      data := FMInstanceCreator.initData label instance_settings_template_id
        virtual_network_id image_id }
  if c.cloud = "AWS" then some (.aws st)
  else if c.cloud = "Azure" then some (.azure st)
  else none

/-- The common state of an instance settings template creator
(`FMInstanceSettingsTemplateCreator.__init__`): the accumulated `data`
dict, which starts with the label, and the client. -/
structure IstCreatorState where
  client : FMClient
  data : JsonFields
  deriving DecidableEq, Repr

/-- A template creator: `FMAWSInstanceSettingsTemplateCreator` or
`FMAzureInstanceSettingsTemplateCreator`. -/
inductive IstCreator where
  | aws (st : IstCreatorState)
  | azure (st : IstCreatorState)
  deriving DecidableEq, Repr

/-- The shared state of either template creator variant. -/
def IstCreator.state : IstCreator → IstCreatorState
  | .aws st => st
  | .azure st => st

/-- `FMClient.new_instance_template_creator(label)`: an AWS creator for an
"AWS" client, an Azure creator for an "Azure" client — and Python's
implicit `None` (modelled by `none`) otherwise. -/
def FMClient.new_instance_template_creator (c : FMClient) (label : Json) :
    Option IstCreator :=
  let st : IstCreatorState := { client := c, data := .cons "label" label .nil }
  if c.cloud = "AWS" then some (.aws st)
  else if c.cloud = "Azure" then some (.azure st)
  else none

/-- What `FMInstanceSettingsTemplate.__init__` receives as its `client`
argument.  Python being dynamically typed, `create()` actually passes the
creator object itself in that position, so the field can hold either. -/
inductive ClientRef where
  | client (c : FMClient)
  | creator (cr : IstCreator)
  deriving DecidableEq, Repr

/-- A handle to an instance settings template: the `client` slot, the `id`
captured from the snapshot, and the local snapshot `ist_data`. -/
structure FMInstanceSettingsTemplate where
  client : ClientRef
  id : Json
  ist_data : Json
  deriving DecidableEq, Repr

/-- `FMInstanceSettingsTemplate.__init__(client, ist_data)`: store the
client slot, read `ist_data["id"]`, store the snapshot. -/
def FMInstanceSettingsTemplate.init (client : ClientRef) (ist_data : Json) :
    Except PyErr FMInstanceSettingsTemplate :=
  match jsonGetItem ist_data "id" with
  | .ok i => .ok { client := client, id := i, ist_data := ist_data }
  | .error e => .error e

/-- `FMInstanceSettingsTemplate.save`: `self.client._perform_tenant_empty`
(PUT of `ist_data`) then `self.client._perform_tenant_json` (GET), storing
the GET response as the new `ist_data`.  When the `client` slot holds the
creator object instead of an `FMClient`, the very first attribute access
`self.client._perform_tenant_empty` raises AttributeError before any
request is sent. -/
def FMInstanceSettingsTemplate.save (t : FMInstanceSettingsTemplate)
    (srv : Server) :
    Except PyErr FMInstanceSettingsTemplate × List HttpRequest :=
  match t.client with
  | .creator _ =>
      (.error (.attributeError
        "FMAWSInstanceSettingsTemplateCreator object has no attribute _perform_tenant_empty"), [])
  | .client c =>
      match c.perform_tenant_empty srv "PUT"
          ("/instance-settings-templates/" ++ pyStr t.id)
          none (some t.ist_data) none none with
      | (.error e, tr) => (.error e, tr)
      | (.ok _, t1) =>
          match c.perform_tenant_json srv "GET"
              ("/instance-settings-templates/" ++ pyStr t.id)
              none none none none with
          | (.error e, t2) => (.error e, t1 ++ t2)
          | (.ok j, t2) => (.ok { t with ist_data := j }, t1 ++ t2)

/-- `FMInstanceSettingsTemplate.delete`: one tenant DELETE wrapped into a
future; with the creator object in the `client` slot, the attribute access
`self.client._perform_tenant_json` raises AttributeError before any
request is sent. -/
def FMInstanceSettingsTemplate.delete (t : FMInstanceSettingsTemplate)
    (srv : Server) : Except PyErr FMFuture × List HttpRequest :=
  match t.client with
  | .creator _ =>
      (.error (.attributeError
        "FMAWSInstanceSettingsTemplateCreator object has no attribute _perform_tenant_json"), [])
  | .client c =>
      match c.perform_tenant_json srv "DELETE"
          ("/instance-settings-templates/" ++ pyStr t.id) none none none none with
      | (.ok j, tr) => (.ok (FMFuture.from_resp c j), tr)
      | (.error e, tr) => (.error e, tr)

/-- `FMInstanceSettingsTemplateCreator.create`: POST the accumulated data
to `/instance-settings-templates` and wrap the response via
`FMInstanceSettingsTemplate(self, template)` — the source passes `self`
(the creator object), not `self.client`, as the handle's client slot. -/
def IstCreator.create (cr : IstCreator) (srv : Server) :
    Except PyErr FMInstanceSettingsTemplate × List HttpRequest :=
  match cr.state.client.perform_tenant_json srv "POST"
      "/instance-settings-templates" none (some (.obj cr.state.data)) none none with
  | (.ok j, tr) => (FMInstanceSettingsTemplate.init (.creator cr) j, tr)
  | (.error e, tr) => (.error e, tr)

/-- `FMClient.get_instance_template(template_id)`: tenant GET of
`/instance-settings-templates/{template_id}`, then
`FMInstanceSettingsTemplate(self, template)` — here the genuine client is
passed. -/
def FMClient.get_instance_template (c : FMClient) (srv : Server)
    (template_id : String) :
    Except PyErr FMInstanceSettingsTemplate × List HttpRequest :=
  match c.perform_tenant_json srv "GET"
      ("/instance-settings-templates/" ++ template_id) none none none none with
  | (.ok j, t) => (FMInstanceSettingsTemplate.init (.client c) j, t)
  | (.error e, t) => (.error e, t)

/-- The Python value passed as `data_volume_encryption`: either a genuine
`FMInstanceEncryptionMode` member, or any other value (`None` included,
modelled as `notMode .null`), which `type(...) is FMInstanceEncryptionMode`
rejects. -/
inductive EncArg where
  | mode (m : FMInstanceEncryptionMode)
  | notMode (v : Json)
  deriving DecidableEq, Repr

/-- One call to a builder `with_*` setter, with its Python argument
values.  The first six belong to `FMInstanceCreator` /
`FMAWSInstanceCreator`; the rest to the instance settings template
creators. -/
inductive Setter where
  | with_dss_node_type (dss_node_type : Json)
  | with_cloud_instance_type (cloud_instance_type : Json)
  | with_data_volume_options (data_volume_type data_volume_size
      data_volume_size_max data_volume_IOPS : Json)
      (data_volume_encryption : EncArg) (data_volume_encryption_key : Json)
  | with_cloud_tags (cloud_tags : Json)
  | with_fm_tags (fm_tags : Json)
  | with_aws_root_volume_options (aws_root_volume_size aws_root_volume_type
      aws_root_volume_IOPS : Json)
  | with_setup_actions (setup_actions : Json)
  | with_license (license : Json)
  | with_aws_keypair (aws_keypair_name : Json)
  | with_startup_instance_profile (startup_instance_profile_arn : Json)
  | with_runtime_instance_profile (runtime_instance_profile_arn : Json)
  | with_restrict_aws_metadata_server_access (restrict : Json)
  | with_default_aws_api_access_mode
  | with_keypair_aws_api_access_mode (aws_access_key_id
      aws_keypair_storage_mode aws_secret_access_key
      aws_secret_access_key_aws_secret_name aws_secrets_manager_region : Json)
  | with_ssh_key (ssh_public_key : Json)
  | with_startup_managed_identity (startup_managed_identity : Json)
  | with_runtime_managed_identity (runtime_managed_identity : Json)
  deriving DecidableEq, Repr

/-- Run one `with_*` setter on the creator's accumulated `data` dict,
translated clause by clause from the source (each raise keeps its source
position relative to the dict assignments; every raising setter checks its
arguments before its first assignment except the deep branches of
`with_keypair_aws_api_access_mode`, whose partial writes no claim
observes because an exception aborts the whole builder chain). -/
def applySetter (s : Setter) (d : JsonFields) : Except PyErr JsonFields :=
  match s with
  | .with_dss_node_type v =>
      if v = .str "design" ∨ v = .str "automation" ∨ v = .str "deployer"
      then .ok (dset d "dssNodeType" v)
      else .error (.valueError
        "Only \"design\", \"automation\" or \"deployer\" dss_node_type are supported")
  | .with_cloud_instance_type v => .ok (dset d "cloudInstanceType" v)
  | .with_data_volume_options t sz szmax iops enc key =>
      match enc with
      | .notMode _ => .error (.typeError
          "data_volume encryption needs to be of type FMInstanceEncryptionMode")
      | .mode m =>
          .ok (dset (dset (dset (dset (dset (dset d
            "dataVolumeType" t)
            "dataVolumeSizeGB" sz)
            "dataVolumeSizeMaxGB" szmax)
            "dataVolumeIOPS" iops)
            "dataVolumeEncryption" (.str m.value))
            "dataVolumeEncryptionKey" key)
  | .with_cloud_tags v => .ok (dset d "cloudTags" v)
  | .with_fm_tags v => .ok (dset d "fmTags" v)
  | .with_aws_root_volume_options sz t iops =>
      .ok (dset (dset (dset d "awsRootVolumeSizeGB" sz)
        "awsRootVolumeType" t) "awsRootVolumeIOPS" iops)
  | .with_setup_actions v => .ok (dset d "setupActions" v)
  | .with_license v => .ok (dset d "license" v)
  | .with_aws_keypair v => .ok (dset d "awsKeyPairName" v)
  | .with_startup_instance_profile v => .ok (dset d "startupInstanceProfileArn" v)
  | .with_runtime_instance_profile v => .ok (dset d "runtimeInstanceProfileArn" v)
  | .with_restrict_aws_metadata_server_access v =>
      .ok (dset d "restrictAwsMetadataServerAccess" v)
  | .with_default_aws_api_access_mode =>
      .ok (dset d "dataikuAwsAPIAccessMode" (.str "NONE"))
  | .with_keypair_aws_api_access_mode kid mode secret secretName region =>
      if mode = .str "NONE" ∨ mode = .str "INLINE_ENCRYPTED" ∨
          mode = .str "AWS_SECRETS_MANAGER" then
        let d1 := dset (dset d "dataikuAwsAPIAccessMode" (.str "KEYPAIR"))
          "dataikuAwsKeypairStorageMode" mode
        if mode = .str "NONE" then .ok d1
        else
          let d2 := dset d1 "dataikuAwsAccessKeyId" kid
          if mode = .str "INLINE_ENCRYPTED" then
            if secret = .null then .error (.valueError
              "When aws_keypair_storage_mode is \"INLINE_ENCRYPTED\", aws_secret_access_key should be provided")
            else .ok (dset d2 "dataikuAwsSecretAccessKey" secret)
          else
            if secretName = .null then .error (.valueError
              "When aws_keypair_storage_mode is \"AWS_SECRETS_MANAGER\", aws_secret_access_key_aws_secret_name should be provided")
            else .ok (dset (dset d2
              "dataikuAwsSecretAccessKeyAwsSecretName" secretName)
              "awsSecretsManagerRegion" region)
      else .error (.valueError
        "aws_keypair_storage_mode should be either \"NONE\", \"INLINE_ENCRYPTED\" or \"AWS_SECRET_MANAGER\"")
  | .with_ssh_key v => .ok (dset d "azureSshKey" v)
  | .with_startup_managed_identity v => .ok (dset d "startupManagedIdentity" v)
  | .with_runtime_managed_identity v => .ok (dset d "runtimeManagedIdentity" v)

/-- The sequence of dict assignments a setter performs when it succeeds. -/
def setterWrites : Setter → List (String × Json)
  | .with_dss_node_type v => [("dssNodeType", v)]
  | .with_cloud_instance_type v => [("cloudInstanceType", v)]
  | .with_data_volume_options t sz szmax iops enc key =>
      match enc with
      | .notMode _ => []
      | .mode m =>
          [("dataVolumeType", t), ("dataVolumeSizeGB", sz),
           ("dataVolumeSizeMaxGB", szmax), ("dataVolumeIOPS", iops),
           ("dataVolumeEncryption", .str m.value),
           ("dataVolumeEncryptionKey", key)]
  | .with_cloud_tags v => [("cloudTags", v)]
  | .with_fm_tags v => [("fmTags", v)]
  | .with_aws_root_volume_options sz t iops =>
      [("awsRootVolumeSizeGB", sz), ("awsRootVolumeType", t),
       ("awsRootVolumeIOPS", iops)]
  | .with_setup_actions v => [("setupActions", v)]
  | .with_license v => [("license", v)]
  | .with_aws_keypair v => [("awsKeyPairName", v)]
  | .with_startup_instance_profile v => [("startupInstanceProfileArn", v)]
  | .with_runtime_instance_profile v => [("runtimeInstanceProfileArn", v)]
  | .with_restrict_aws_metadata_server_access v =>
      [("restrictAwsMetadataServerAccess", v)]
  | .with_default_aws_api_access_mode => [("dataikuAwsAPIAccessMode", .str "NONE")]
  | .with_keypair_aws_api_access_mode kid mode secret secretName region =>
      [("dataikuAwsAPIAccessMode", .str "KEYPAIR"),
       ("dataikuAwsKeypairStorageMode", mode)] ++
      (if mode = .str "NONE" then []
       else [("dataikuAwsAccessKeyId", kid)] ++
         (if mode = .str "INLINE_ENCRYPTED" then
            [("dataikuAwsSecretAccessKey", secret)]
          else
            [("dataikuAwsSecretAccessKeyAwsSecretName", secretName),
             ("awsSecretsManagerRegion", region)]))
  | .with_ssh_key v => [("azureSshKey", v)]
  | .with_startup_managed_identity v => [("startupManagedIdentity", v)]
  | .with_runtime_managed_identity v => [("runtimeManagedIdentity", v)]

/-- The set of dict keys a setter writes when it succeeds. -/
def setterKeys (s : Setter) : List String := (setterWrites s).map Prod.fst

theorem dsets_append (d : JsonFields) (as bs : List (String × Json)) :
    dsets d (as ++ bs) = dsets (dsets d as) bs := by
  induction as generalizing d with
  | nil => rfl
  | cons a rest ih => cases a; simp [dsets, ih]

/-- A successful setter call computes exactly the sequential dict
assignments `setterWrites` records. -/
theorem applySetter_ok (s : Setter) (d d' : JsonFields)
    (h : applySetter s d = .ok d') : d' = dsets d (setterWrites s) := by
  cases s with
  | with_dss_node_type v =>
      by_cases hv : v = .str "design" ∨ v = .str "automation" ∨ v = .str "deployer"
      · simp [applySetter, hv, dsets] at h; simp [setterWrites, dsets, h]
      · simp [applySetter, hv] at h
  | with_data_volume_options t sz szmax iops enc key =>
      cases enc with
      | notMode v => simp [applySetter] at h
      | mode m =>
          simp [applySetter] at h
          simp [setterWrites, dsets, h]
  | with_keypair_aws_api_access_mode kid mode secret secretName region =>
      by_cases hm : mode = .str "NONE" ∨ mode = .str "INLINE_ENCRYPTED" ∨
          mode = .str "AWS_SECRETS_MANAGER"
      · rcases hm with h1 | h2 | h3
        · subst h1; simp [applySetter] at h; simp [setterWrites, dsets, h]
        · subst h2
          by_cases hs : secret = .null
          · simp [applySetter, hs] at h
          · simp [applySetter, hs] at h; simp [setterWrites, dsets, h]
        · subst h3
          by_cases hs : secretName = .null
          · simp [applySetter, hs] at h
          · simp [applySetter, hs] at h; simp [setterWrites, dsets, h]
      · simp [applySetter, hm] at h
  | with_cloud_instance_type v => simp [applySetter] at h; simp [setterWrites, dsets, h]
  | with_cloud_tags v => simp [applySetter] at h; simp [setterWrites, dsets, h]
  | with_fm_tags v => simp [applySetter] at h; simp [setterWrites, dsets, h]
  | with_aws_root_volume_options sz t iops =>
      simp [applySetter] at h; simp [setterWrites, dsets, h]
  | with_setup_actions v => simp [applySetter] at h; simp [setterWrites, dsets, h]
  | with_license v => simp [applySetter] at h; simp [setterWrites, dsets, h]
  | with_aws_keypair v => simp [applySetter] at h; simp [setterWrites, dsets, h]
  | with_startup_instance_profile v =>
      simp [applySetter] at h; simp [setterWrites, dsets, h]
  | with_runtime_instance_profile v =>
      simp [applySetter] at h; simp [setterWrites, dsets, h]
  | with_restrict_aws_metadata_server_access v =>
      simp [applySetter] at h; simp [setterWrites, dsets, h]
  | with_default_aws_api_access_mode =>
      simp [applySetter] at h; simp [setterWrites, dsets, h]
  | with_ssh_key v => simp [applySetter] at h; simp [setterWrites, dsets, h]
  | with_startup_managed_identity v =>
      simp [applySetter] at h; simp [setterWrites, dsets, h]
  | with_runtime_managed_identity v =>
      simp [applySetter] at h; simp [setterWrites, dsets, h]

/-- Whether a setter call succeeds depends only on the setter and its
arguments, never on the accumulated dict. -/
theorem applySetter_ok_iff (s : Setter) (d e : JsonFields) :
    (∃ d', applySetter s d = .ok d') ↔ (∃ e', applySetter s e = .ok e') := by
  cases s with
  | with_dss_node_type v =>
      by_cases hv : v = .str "design" ∨ v = .str "automation" ∨ v = .str "deployer" <;>
        simp [applySetter, hv]
  | with_data_volume_options t sz szmax iops enc key =>
      cases enc <;> simp [applySetter]
  | with_keypair_aws_api_access_mode kid mode secret secretName region =>
      by_cases hm : mode = .str "NONE" ∨ mode = .str "INLINE_ENCRYPTED" ∨
          mode = .str "AWS_SECRETS_MANAGER"
      · rcases hm with h1 | h2 | h3
        · subst h1; simp [applySetter]
        · subst h2; by_cases hs : secret = .null <;> simp [applySetter, hs]
        · subst h3; by_cases hs : secretName = .null <;> simp [applySetter, hs]
      · simp [applySetter, hm]
  | with_cloud_instance_type v => simp [applySetter]
  | with_cloud_tags v => simp [applySetter]
  | with_fm_tags v => simp [applySetter]
  | with_aws_root_volume_options sz t iops => simp [applySetter]
  | with_setup_actions v => simp [applySetter]
  | with_license v => simp [applySetter]
  | with_aws_keypair v => simp [applySetter]
  | with_startup_instance_profile v => simp [applySetter]
  | with_runtime_instance_profile v => simp [applySetter]
  | with_restrict_aws_metadata_server_access v => simp [applySetter]
  | with_default_aws_api_access_mode => simp [applySetter]
  | with_ssh_key v => simp [applySetter]
  | with_startup_managed_identity v => simp [applySetter]
  | with_runtime_managed_identity v => simp [applySetter]

theorem perform_tenant_empty_spec (c : FMClient) (srv : Server) (method path : String)
    (params body files : Option Json) (raw_body : Option String) :
    c.perform_tenant_empty srv method path params body files raw_body =
      (let req := c.mkRequest method ("/tenants/" ++ c.tenant_id ++ path)
        params body false files raw_body
       ((if raisesForStatus (srv req).status then .error (httpErrorOf (srv req))
         else .ok ()), [req])) := by
  unfold FMClient.perform_tenant_empty FMClient.perform_empty FMClient.perform_http
  by_cases h : raisesForStatus
      (srv (c.mkRequest method ("/tenants/" ++ c.tenant_id ++ path)
        params body false files raw_body)).status = true <;>
    simp [h]

theorem perform_tenant_json_spec (c : FMClient) (srv : Server) (method path : String)
    (params body files : Option Json) (raw_body : Option String) :
    c.perform_tenant_json srv method path params body files raw_body =
      (let req := c.mkRequest method ("/tenants/" ++ c.tenant_id ++ path)
        params body false files raw_body
       ((if raisesForStatus (srv req).status then .error (httpErrorOf (srv req))
         else match (srv req).jsonBody with
              | some j => .ok j
              | none => .error (.valueError "No JSON object could be decoded")), [req])) := by
  unfold FMClient.perform_tenant_json FMClient.perform_json FMClient.perform_http
  by_cases h : raisesForStatus
      (srv (c.mkRequest method ("/tenants/" ++ c.tenant_id ++ path)
        params body false files raw_body)).status = true
  · simp [h]
  · cases hj : (srv (c.mkRequest method ("/tenants/" ++ c.tenant_id ++ path)
        params body false files raw_body)).jsonBody <;> simp [h, hj]

/-- The tenant path of an instance: `/tenants/{tenant_id}/instances/{id}`. -/
def instanceTenantPath (i : FMInstance) : String :=
  "/tenants/" ++ i.client.tenant_id ++ ("/instances/" ++ pyStr i.id)

/-- The PUT request `FMInstance.save` issues. -/
def instancePutReq (i : FMInstance) : HttpRequest :=
  i.client.mkRequest "PUT" (instanceTenantPath i) none (some i.instance_data) false none none

/-- The GET request `FMInstance.save` issues. -/
def instanceGetReq (i : FMInstance) : HttpRequest :=
  i.client.mkRequest "GET" (instanceTenantPath i) none none false none none

/-- Closed form of `FMInstance.save`: the PUT, then — unless the PUT
raised — the GET, whose JSON body (when present) becomes the new local
snapshot. -/
theorem FMInstance.save_spec (i : FMInstance) (srv : Server) :
    i.save srv =
      (if raisesForStatus (srv (instancePutReq i)).status then
        (.error (httpErrorOf (srv (instancePutReq i))), [instancePutReq i])
       else if raisesForStatus (srv (instanceGetReq i)).status then
        (.error (httpErrorOf (srv (instanceGetReq i))),
          [instancePutReq i, instanceGetReq i])
       else match (srv (instanceGetReq i)).jsonBody with
            | some j => (.ok { i with instance_data := j },
                [instancePutReq i, instanceGetReq i])
            | none => (.error (.valueError "No JSON object could be decoded"),
                [instancePutReq i, instanceGetReq i])) := by
  unfold FMInstance.save
  rw [perform_tenant_empty_spec, perform_tenant_json_spec]
  simp only [instancePutReq, instanceGetReq, instanceTenantPath]
  by_cases hput : raisesForStatus
      ((srv (i.client.mkRequest "PUT"
        ("/tenants/" ++ i.client.tenant_id ++ ("/instances/" ++ pyStr i.id))
        none (some i.instance_data) false none none)).status) = true
  · simp [hput]
  · by_cases hget : raisesForStatus
        ((srv (i.client.mkRequest "GET"
          ("/tenants/" ++ i.client.tenant_id ++ ("/instances/" ++ pyStr i.id))
          none none false none none)).status) = true
    · simp [hput, hget]
    · cases hj : (srv (i.client.mkRequest "GET"
          ("/tenants/" ++ i.client.tenant_id ++ ("/instances/" ++ pyStr i.id))
          none none false none none)).jsonBody <;>
        simp [hput, hget, hj]

/-- The tenant path of a template:
`/tenants/{tenant_id}/instance-settings-templates/{id}`. -/
def istTenantPath (c : FMClient) (t : FMInstanceSettingsTemplate) : String :=
  "/tenants/" ++ c.tenant_id ++ ("/instance-settings-templates/" ++ pyStr t.id)

/-- The PUT request `FMInstanceSettingsTemplate.save` issues. -/
def istPutReq (c : FMClient) (t : FMInstanceSettingsTemplate) : HttpRequest :=
  c.mkRequest "PUT" (istTenantPath c t) none (some t.ist_data) false none none

/-- The GET request `FMInstanceSettingsTemplate.save` issues. -/
def istGetReq (c : FMClient) (t : FMInstanceSettingsTemplate) : HttpRequest :=
  c.mkRequest "GET" (istTenantPath c t) none none false none none

/-- Closed form of `FMInstanceSettingsTemplate.save` when the `client`
slot holds a genuine `FMClient`. -/
theorem FMInstanceSettingsTemplate.ist_save_spec (t : FMInstanceSettingsTemplate)
    (c : FMClient) (srv : Server) (hc : t.client = .client c) :
    t.save srv =
      (if raisesForStatus (srv (istPutReq c t)).status then
        (.error (httpErrorOf (srv (istPutReq c t))), [istPutReq c t])
       else if raisesForStatus (srv (istGetReq c t)).status then
        (.error (httpErrorOf (srv (istGetReq c t))), [istPutReq c t, istGetReq c t])
       else match (srv (istGetReq c t)).jsonBody with
            | some j => (.ok { t with ist_data := j }, [istPutReq c t, istGetReq c t])
            | none => (.error (.valueError "No JSON object could be decoded"),
                [istPutReq c t, istGetReq c t])) := by
  obtain ⟨cl, tid0, tdata0⟩ := t
  simp only at hc
  subst hc
  unfold FMInstanceSettingsTemplate.save
  dsimp only
  rw [perform_tenant_empty_spec, perform_tenant_json_spec]
  simp only [istPutReq, istGetReq, istTenantPath]
  by_cases hput : raisesForStatus
      ((srv (c.mkRequest "PUT"
        ("/tenants/" ++ c.tenant_id ++ ("/instance-settings-templates/" ++ pyStr tid0))
        none (some tdata0) false none none)).status) = true
  · simp [hput]
  · by_cases hget : raisesForStatus
        ((srv (c.mkRequest "GET"
          ("/tenants/" ++ c.tenant_id ++ ("/instance-settings-templates/" ++ pyStr tid0))
          none none false none none)).status) = true
    · simp [hput, hget]
    · cases hj : (srv (c.mkRequest "GET"
          ("/tenants/" ++ c.tenant_id ++ ("/instance-settings-templates/" ++ pyStr tid0))
          none none false none none)).jsonBody <;>
        simp [hput, hget, hj]

/-- A concrete client used by witnesses and counterexamples. -/
def c0 : FMClient :=
  { host := "http://fm", api_key_id := "id", api_key_secret := "secret",
    cloud := "AWS", tenant_id := "main" }

/-- A concrete instance handle (snapshot `{"id": "i1"}`). -/
def i0 : FMInstance :=
  { client := c0, instance_data := .obj (.cons "id" (.str "i1") .nil), id := .str "i1" }

/-- A server that always answers 200 with body `{"id": "i1", "label": "L"}`. -/
def srvOK : Server := fun _ =>
  { status := 200, text := "x",
    jsonBody := some (.obj (.cons "id" (.str "i1") (.cons "label" (.str "L") .nil))) }

/-- A server that always answers 404 with body
`{"errorType": "NotFound", "message": "no such instance"}`. -/
def srv404 : Server := fun _ =>
  { status := 404, text := "x",
    jsonBody := some (.obj (.cons "errorType" (.str "NotFound")
      (.cons "message" (.str "no such instance") .nil))) }

/-- A server that always answers 304 (non-2xx, not 4xx/5xx) with a
non-JSON body. -/
def srv304 : Server := fun _ => { status := 304, text := "redirect", jsonBody := none }

/-- A server that always answers 404 with body `[]` (valid JSON that is
not an object). -/
def srvArr : Server := fun _ => { status := 404, text := "[]", jsonBody := some (.arr .nil) }

/-- A server that answers 200 with body `[{"id": "i1"}]`. -/
def srvList : Server := fun _ =>
  { status := 200, text := "y",
    jsonBody := some (.arr (.cons (.obj (.cons "id" (.str "i1") .nil)) .nil)) }

/-- A server that answers 200 with body `{"id": "i1"}`. -/
def srvObj : Server := fun _ =>
  { status := 200, text := "y", jsonBody := some (.obj (.cons "id" (.str "i1") .nil)) }

/-- A concrete AWS template creator holding `{"label": "t"}`. -/
def cr0 : IstCreator := .aws { client := c0, data := .cons "label" (.str "t") .nil }

/-- A server that answers 200 with body `{"id": "ist-1"}`. -/
def srvIst : Server := fun _ =>
  { status := 200, text := "y", jsonBody := some (.obj (.cons "id" (.str "ist-1") .nil)) }

/-- C7: for every method, path and payload, `_perform_tenant_json` and
`_perform_tenant_empty` behave exactly as `_perform_json` /
`_perform_empty` on the path prefixed with `/tenants/{tenant_id}`. -/
theorem tenant_variants_prefix_path (c : FMClient) (srv : Server) (method path : String)
    (params body files : Option Json) (raw_body : Option String) :
    c.perform_tenant_json srv method path params body files raw_body =
      c.perform_json srv method ("/tenants/" ++ c.tenant_id ++ path)
        params body files raw_body ∧
    c.perform_tenant_empty srv method path params body files raw_body =
      c.perform_empty srv method ("/tenants/" ++ c.tenant_id ++ path)
        params body files raw_body :=
  ⟨rfl, rfl⟩

/-- C10: when both `body` and `raw_body` are given, the request payload is
`raw_body` alone (the JSON serialization of `body` is discarded), and the
call still issues exactly that one request. -/
theorem raw_body_overrides_body (c : FMClient) (srv : Server) (method path : String)
    (params : Option Json) (b : Json) (stream : Bool) (files : Option Json)
    (r : String) :
    (c.mkRequest method path params (some b) stream files (some r)).data = some r ∧
    (c.perform_http srv method path params (some b) stream files (some r)).2 =
      [c.mkRequest method path params (some b) stream files (some r)] := by
  refine ⟨rfl, ?_⟩
  unfold FMClient.perform_http
  by_cases h : raisesForStatus
      ((srv (c.mkRequest method path params (some b) stream files (some r))).status) = true <;>
    simp [h]

/-- C8: `FMClient.__init__` raises ValueError whenever the cloud is not
"AWS"/"Azure" or an api key part is missing; every successfully
constructed client has cloud "AWS" or "Azure", so both creator factory
methods return a creator (never Python None). -/
theorem fmclient_construction_validates (host : String)
    (api_key_id api_key_secret : Option String) (cloud tenant_id : String) :
    ((cloud ∉ (["AWS", "Azure"] : List String) ∨ api_key_id = none ∨
        api_key_secret = none) →
      ∃ msg, FMClient.make host api_key_id api_key_secret cloud tenant_id =
        .error (.valueError msg)) ∧
    (∀ c, FMClient.make host api_key_id api_key_secret cloud tenant_id = .ok c →
      (c.cloud = "AWS" ∨ c.cloud = "Azure") ∧
      (∀ label, (c.new_instance_template_creator label).isSome = true) ∧
      (∀ label ist vn img,
        (c.new_instance_creator label ist vn img).isSome = true)) := by
  constructor
  · intro h
    by_cases hm : cloud ∈ (["AWS", "Azure"] : List String)
    · rcases h with h | h | h
      · exact absurd hm h
      · subst h
        cases api_key_secret <;>
          exact ⟨"API Key ID and API Key secret are required",
            by simp [FMClient.make, hm]⟩
      · subst h
        cases api_key_id <;>
          exact ⟨"API Key ID and API Key secret are required",
            by simp [FMClient.make, hm]⟩
    · exact ⟨"cloud should be either \"AWS\" or \"Azure\"",
        by simp [FMClient.make, hm]⟩
  · intro c hc
    unfold FMClient.make at hc
    by_cases hm : cloud ∈ (["AWS", "Azure"] : List String)
    · rw [if_pos hm] at hc
      cases api_key_id with
      | none => cases api_key_secret <;> simp at hc
      | some kid =>
          cases api_key_secret with
          | none => simp at hc
          | some ks =>
              simp only [Except.ok.injEq] at hc
              subst hc
              simp only [List.mem_cons, List.mem_singleton, List.not_mem_nil,
                or_false] at hm
              refine ⟨hm, ?_, ?_⟩
              · intro label
                rcases hm with hm | hm <;>
                  simp [FMClient.new_instance_template_creator, hm]
              · intro label ist vn img
                rcases hm with hm | hm <;>
                  simp [FMClient.new_instance_creator, hm]
    · rw [if_neg hm] at hc
      simp at hc

/-- Witness for C8 at concrete inputs: cloud "GCP" is rejected with
ValueError; an "AWS" client is accepted and both factories return a
creator. -/
theorem fmclient_construction_validates_witness :
    (∃ msg, FMClient.make "h" (some "i") (some "s") "GCP" "main" =
      .error (.valueError msg)) ∧
    (((⟨"h", "i", "s", "AWS", "main"⟩ : FMClient).cloud = "AWS" ∨
      (⟨"h", "i", "s", "AWS", "main"⟩ : FMClient).cloud = "Azure")) ∧
    ((⟨"h", "i", "s", "AWS", "main"⟩ : FMClient).new_instance_template_creator
      (.str "L")).isSome = true ∧
    ((⟨"h", "i", "s", "AWS", "main"⟩ : FMClient).new_instance_creator
      (.str "L") (.str "t") (.str "v") (.str "img")).isSome = true := by
  have h2 := (fmclient_construction_validates "h" (some "i") (some "s") "AWS" "main").2
    ⟨"h", "i", "s", "AWS", "main"⟩ rfl
  exact ⟨(fmclient_construction_validates "h" (some "i") (some "s") "GCP" "main").1
      (Or.inl (by decide)),
    h2.1, h2.2.1 (.str "L"), h2.2.2 (.str "L") (.str "t") (.str "v") (.str "img")⟩

/-- C9: `with_data_volume_options` raises TypeError exactly when
`data_volume_encryption` is not an `FMInstanceEncryptionMode` member
(`None`, its default, included), before any assignment, leaving the
accumulated data untouched; with a genuine member it performs exactly the
six documented assignments. -/
theorem with_data_volume_options_type_check (t sz szmax iops key : Json)
    (enc : EncArg) (d : JsonFields) :
    (∀ v, enc = .notMode v →
      applySetter (.with_data_volume_options t sz szmax iops enc key) d =
        .error (.typeError
          "data_volume encryption needs to be of type FMInstanceEncryptionMode")) ∧
    (∀ m, enc = .mode m →
      applySetter (.with_data_volume_options t sz szmax iops enc key) d =
        .ok (dsets d [("dataVolumeType", t), ("dataVolumeSizeGB", sz),
          ("dataVolumeSizeMaxGB", szmax), ("dataVolumeIOPS", iops),
          ("dataVolumeEncryption", .str m.value),
          ("dataVolumeEncryptionKey", key)])) := by
  constructor
  · intro v hv; subst hv; rfl
  · intro m hm; subst hm; simp [applySetter, dsets]

/-- Witness for C9: the default call (`data_volume_encryption = None`)
raises TypeError. -/
theorem with_data_volume_options_type_check_witness :
    applySetter (.with_data_volume_options .null .null .null .null
        (.notMode .null) .null) (.cons "label" (.str "t") .nil) =
      .error (.typeError
        "data_volume encryption needs to be of type FMInstanceEncryptionMode") :=
  (with_data_volume_options_type_check .null .null .null .null .null (.notMode .null)
    (.cons "label" (.str "t") .nil)).1 .null rfl

/-- C5 (amended): two setter calls of the same creator whose written key
sets are disjoint commute — either order of a successful
`with_x(a).with_y(b)` chain accumulates the same Python dict (hence
`create()` POSTs equal JSON objects; only the serialized key order can
differ).  The pair `with_default_aws_api_access_mode` /
`with_keypair_aws_api_access_mode` both write `dataikuAwsAPIAccessMode`
and is excluded by the disjointness hypothesis. -/
theorem setter_order_independence (s t : Setter) (d d1 d2 e1 e2 : JsonFields)
    (hdisj : ∀ k, k ∈ setterKeys s → k ∉ setterKeys t)
    (h1 : applySetter s d = .ok d1) (h2 : applySetter t d1 = .ok d2)
    (h3 : applySetter t d = .ok e1) (h4 : applySetter s e1 = .ok e2) :
    pyDictEq d2 e2 = true := by
  have hd1 := applySetter_ok s d d1 h1
  have hd2 := applySetter_ok t d1 d2 h2
  have he1 := applySetter_ok t d e1 h3
  have he2 := applySetter_ok s e1 e2 h4
  subst hd1
  subst he1
  subst hd2
  subst he2
  exact pyDictEq_of_forall_dlookup _ _
    (fun k => dsets_comm_of_disjoint d (setterWrites s) (setterWrites t)
      (by simpa [setterKeys] using hdisj) k)

/-- Witness for C5 at concrete inputs: `with_cloud_tags` and
`with_fm_tags` in either order accumulate equal dicts. -/
theorem setter_order_independence_witness :
    pyDictEq
      (.cons "label" (.str "t") (.cons "cloudTags" (.obj .nil)
        (.cons "fmTags" (.arr .nil) .nil)))
      (.cons "label" (.str "t") (.cons "fmTags" (.arr .nil)
        (.cons "cloudTags" (.obj .nil) .nil))) = true :=
  setter_order_independence (.with_cloud_tags (.obj .nil)) (.with_fm_tags (.arr .nil))
    (.cons "label" (.str "t") .nil)
    (.cons "label" (.str "t") (.cons "cloudTags" (.obj .nil) .nil))
    (.cons "label" (.str "t") (.cons "cloudTags" (.obj .nil)
      (.cons "fmTags" (.arr .nil) .nil)))
    (.cons "label" (.str "t") (.cons "fmTags" (.arr .nil) .nil))
    (.cons "label" (.str "t") (.cons "fmTags" (.arr .nil)
      (.cons "cloudTags" (.obj .nil) .nil)))
    (by intro k hk
        simp [setterKeys, setterWrites] at hk
        subst hk
        simp [setterKeys, setterWrites])
    rfl rfl rfl rfl

/-- Counterexample to C5 as stated: `with_default_aws_api_access_mode`
and `with_keypair_aws_api_access_mode` (neither raising) accumulate
dicts that differ at `dataikuAwsAPIAccessMode` depending on the order, so
the two `create()` request bodies differ. -/
theorem setter_order_dependence_counterexample :
    (applySetter .with_default_aws_api_access_mode
        (.cons "label" (.str "t") .nil)).bind
      (applySetter (.with_keypair_aws_api_access_mode (.str "AKIA") (.str "NONE")
        .null .null .null)) =
      .ok (.cons "label" (.str "t") (.cons "dataikuAwsAPIAccessMode" (.str "KEYPAIR")
        (.cons "dataikuAwsKeypairStorageMode" (.str "NONE") .nil))) ∧
    (applySetter (.with_keypair_aws_api_access_mode (.str "AKIA") (.str "NONE")
        .null .null .null) (.cons "label" (.str "t") .nil)).bind
      (applySetter .with_default_aws_api_access_mode) =
      .ok (.cons "label" (.str "t") (.cons "dataikuAwsAPIAccessMode" (.str "NONE")
        (.cons "dataikuAwsKeypairStorageMode" (.str "NONE") .nil))) ∧
    pyDictEq
      (.cons "label" (.str "t") (.cons "dataikuAwsAPIAccessMode" (.str "KEYPAIR")
        (.cons "dataikuAwsKeypairStorageMode" (.str "NONE") .nil)))
      (.cons "label" (.str "t") (.cons "dataikuAwsAPIAccessMode" (.str "NONE")
        (.cons "dataikuAwsKeypairStorageMode" (.str "NONE") .nil))) = false :=
  ⟨rfl, rfl, rfl⟩

/-- C1 (amended): `_perform_http` translates a failed response into
exactly one raised exception, but only 4xx/5xx statuses count as failure
(`raise_for_status`), and the exception is: DataikuException
`"{errorType}: {message}"` (with the defaults substituted) when the body
parses as a JSON object; DataikuException `"Unknown error: {raw text}"`
when the body is not JSON; and AttributeError when the body parses as
JSON that is not an object (`ex.get` on a non-dict).  Exactly one request
is issued. -/
theorem perform_http_error_translation (c : FMClient) (srv : Server)
    (method path : String) (params body files : Option Json) (stream : Bool)
    (raw_body : Option String) (res : HttpResponse)
    (hres : srv (c.mkRequest method path params body stream files raw_body) = res)
    (hstatus : 400 ≤ res.status ∧ res.status < 600) :
    (res.jsonBody = none →
      (c.perform_http srv method path params body stream files raw_body).1 =
        .error (.dataikuException ("Unknown error: " ++ res.text))) ∧
    (∀ fs, res.jsonBody = some (.obj fs) →
      (c.perform_http srv method path params body stream files raw_body).1 =
        .error (.dataikuException
          (pyStr (dget fs "errorType" (.str "Unknown error")) ++ ": " ++
           pyStr (dget fs "message" (.str "No message"))))) ∧
    (∀ j, res.jsonBody = some j → (∀ fs, j ≠ .obj fs) →
      (c.perform_http srv method path params body stream files raw_body).1 =
        .error (.attributeError "object has no attribute get")) ∧
    (c.perform_http srv method path params body stream files raw_body).2 =
      [c.mkRequest method path params body stream files raw_body] := by
  have hb : raisesForStatus res.status = true := by
    simp [raisesForStatus, decide_eq_true_eq, hstatus.1, hstatus.2]
  have hph : c.perform_http srv method path params body stream files raw_body =
      (.error (httpErrorOf res),
        [c.mkRequest method path params body stream files raw_body]) := by
    unfold FMClient.perform_http
    dsimp only
    rw [hres, hb]
    rw [if_pos rfl]
  refine ⟨?_, ?_, ?_, ?_⟩
  · intro hnone
    rw [hph]
    simp only [httpErrorOf, hnone]
    rfl
  · intro fs hfs
    rw [hph]
    simp only [httpErrorOf, hfs]
  · intro j hj hno
    rw [hph]
    simp only [httpErrorOf, hj]
  · rw [hph]

/-- Witness for C1 at a concrete input: status 404 with body
`{"errorType": "NotFound", "message": "no such instance"}` raises
DataikuException "NotFound: no such instance". -/
theorem perform_http_error_translation_witness :
    (c0.perform_http srv404 "GET" "/instances/i1" none none false none none).1 =
      .error (.dataikuException "NotFound: no such instance") :=
  (perform_http_error_translation c0 srv404 "GET" "/instances/i1" none none none
    false none (srv404 (c0.mkRequest "GET" "/instances/i1" none none false none none))
    rfl (by decide)).2.1
    (.cons "errorType" (.str "NotFound") (.cons "message" (.str "no such instance") .nil))
    rfl

/-- Counterexample to C1 as stated: a 304 response (non-2xx) raises no
exception at all, and a 404 response whose body parses as the JSON value
`[]` raises AttributeError rather than a DataikuException carrying the
errorType/message fields. -/
theorem perform_http_non2xx_counterexample :
    (c0.perform_http srv304 "GET" "/x" none none false none none).1 =
      .ok { status := 304, text := "redirect", jsonBody := none } ∧
    (c0.perform_http srvArr "GET" "/x" none none false none none).1 =
      .error (.attributeError "object has no attribute get") :=
  ⟨rfl, rfl⟩

/-- C2: a successful `save()` on either resource handle issues exactly the
PUT of the current local state to the resource's tenant URL followed by
the GET of the same URL, and afterwards the handle's local snapshot equals
the JSON body of the GET response (client and id untouched). -/
theorem save_put_then_get_refresh :
    (∀ (i i' : FMInstance) (srv : Server) (tr : List HttpRequest),
      i.save srv = (.ok i', tr) →
      tr = [instancePutReq i, instanceGetReq i] ∧
      (srv (instanceGetReq i)).jsonBody = some i'.instance_data ∧
      i'.client = i.client ∧ i'.id = i.id) ∧
    (∀ (t t' : FMInstanceSettingsTemplate) (c : FMClient) (srv : Server)
        (tr : List HttpRequest),
      t.client = .client c → t.save srv = (.ok t', tr) →
      tr = [istPutReq c t, istGetReq c t] ∧
      (srv (istGetReq c t)).jsonBody = some t'.ist_data ∧
      t'.client = t.client ∧ t'.id = t.id) := by
  constructor
  · intro i i' srv tr h
    rw [FMInstance.save_spec] at h
    by_cases hput : raisesForStatus ((srv (instancePutReq i)).status) = true
    · rw [if_pos hput] at h
      exact absurd h (by simp)
    · rw [if_neg hput] at h
      by_cases hget : raisesForStatus ((srv (instanceGetReq i)).status) = true
      · rw [if_pos hget] at h
        exact absurd h (by simp)
      · rw [if_neg hget] at h
        cases hj : (srv (instanceGetReq i)).jsonBody with
        | none =>
            rw [hj] at h
            exact absurd h (by simp)
        | some j =>
            rw [hj] at h
            rw [Prod.mk.injEq] at h
            obtain ⟨h1, h2⟩ := h
            simp only [Except.ok.injEq] at h1
            subst h1
            exact ⟨h2.symm, rfl, rfl, rfl⟩
  · intro t t' c srv tr hc h
    rw [FMInstanceSettingsTemplate.ist_save_spec t c srv hc] at h
    by_cases hput : raisesForStatus ((srv (istPutReq c t)).status) = true
    · rw [if_pos hput] at h
      exact absurd h (by simp)
    · rw [if_neg hput] at h
      by_cases hget : raisesForStatus ((srv (istGetReq c t)).status) = true
      · rw [if_pos hget] at h
        exact absurd h (by simp)
      · rw [if_neg hget] at h
        cases hj : (srv (istGetReq c t)).jsonBody with
        | none =>
            rw [hj] at h
            exact absurd h (by simp)
        | some j =>
            rw [hj] at h
            rw [Prod.mk.injEq] at h
            obtain ⟨h1, h2⟩ := h
            simp only [Except.ok.injEq] at h1
            subst h1
            exact ⟨h2.symm, rfl, rfl, rfl⟩

/-- The handle `i0` after a save against `srvOK`. -/
def i0Saved : FMInstance :=
  { i0 with instance_data := .obj (.cons "id" (.str "i1")
      (.cons "label" (.str "L") .nil)) }

/-- Witness for C2 at a concrete input: saving `i0` against `srvOK`. -/
theorem save_put_then_get_refresh_witness :
    (i0.save srvOK).2 = [instancePutReq i0, instanceGetReq i0] ∧
    (srvOK (instanceGetReq i0)).jsonBody = some i0Saved.instance_data ∧
    i0Saved.client = i0.client ∧ i0Saved.id = i0.id :=
  save_put_then_get_refresh.1 i0 i0Saved srvOK (i0.save srvOK).2 rfl

theorem perform_tenant_json_trace (c : FMClient) (srv : Server) (method path : String)
    (params body files : Option Json) (raw_body : Option String) :
    (c.perform_tenant_json srv method path params body files raw_body).2 =
      [c.mkRequest method ("/tenants/" ++ c.tenant_id ++ path)
        params body false files raw_body] := by
  rw [perform_tenant_json_spec]

/-- C6 (amended): per call, `reprovision`, `deprovision`, `restart_dss`
and `delete` issue exactly one request (never a retry); each `set_*`
method delegates to `save()` on the updated snapshot, and `save()` issues
exactly the PUT followed — only when the PUT did not raise — by the GET,
so a `set_*` call issues two requests rather than one. -/
theorem action_methods_request_traces (i : FMInstance) (srv : Server)
    (e p k pem eip aid pid : Json) :
    (i.reprovision srv).2 = [i.client.mkRequest "GET"
      ("/tenants/" ++ i.client.tenant_id ++
        ("/instances/" ++ pyStr i.id ++ "/actions/reprovision"))
      none none false none none] ∧
    (i.deprovision srv).2 = [i.client.mkRequest "GET"
      ("/tenants/" ++ i.client.tenant_id ++
        ("/instances/" ++ pyStr i.id ++ "/actions/deprovision"))
      none none false none none] ∧
    (i.restart_dss srv).2 = [i.client.mkRequest "GET"
      ("/tenants/" ++ i.client.tenant_id ++
        ("/instances/" ++ pyStr i.id ++ "/actions/restart-dss"))
      none none false none none] ∧
    (i.delete srv).2 = [i.client.mkRequest "GET"
      ("/tenants/" ++ i.client.tenant_id ++
        ("/instances/" ++ pyStr i.id ++ "/actions/delete"))
      none none false none none] ∧
    (∀ j : FMInstance, (j.save srv).2 =
      (if raisesForStatus ((srv (instancePutReq j)).status) then [instancePutReq j]
       else [instancePutReq j, instanceGetReq j])) ∧
    (∀ fs, i.instance_data = .obj fs →
      ((i.set_automated_snapshots srv e p k).2 =
        (FMInstance.save { i with instance_data := .obj (dset (dset (dset fs
          "enableAutomatedSnapshot" e) "automatedSnapshotPeriod" p)
          "automatedSnapshotRetention" k) } srv).2 ∧
       (i.set_custom_certificate srv pem).2 =
        (FMInstance.save { i with
          instance_data := Json.obj (dset fs "sslCertificatePEM" pem) } srv).2 ∧
       (FMAWSInstance.set_elastic_ip i srv eip aid).2 =
        (FMInstance.save { i with instance_data := .obj (dset (dset fs
          "awsAssignElasticIP" eip) "awsElasticIPAllocationId" aid) } srv).2 ∧
       (FMAzureInstance.set_elastic_ip i srv eip pid).2 =
        (FMInstance.save { i with instance_data := .obj (dset (dset fs
          "azureAssignElasticIP" eip) "azurePublicIPId" pid) } srv).2)) := by
  have htr := fun path => perform_tenant_json_trace i.client srv "GET" path
    none none none none
  refine ⟨?_, ?_, ?_, ?_, ?_, ?_⟩
  · unfold FMInstance.reprovision
    cases hP : i.client.perform_tenant_json srv "GET"
        ("/instances/" ++ pyStr i.id ++ "/actions/reprovision")
        none none none none with
    | mk x tt =>
        have h2 := htr ("/instances/" ++ pyStr i.id ++ "/actions/reprovision")
        rw [hP] at h2
        cases x <;> simpa using h2
  · unfold FMInstance.deprovision
    cases hP : i.client.perform_tenant_json srv "GET"
        ("/instances/" ++ pyStr i.id ++ "/actions/deprovision")
        none none none none with
    | mk x tt =>
        have h2 := htr ("/instances/" ++ pyStr i.id ++ "/actions/deprovision")
        rw [hP] at h2
        cases x <;> simpa using h2
  · unfold FMInstance.restart_dss
    cases hP : i.client.perform_tenant_json srv "GET"
        ("/instances/" ++ pyStr i.id ++ "/actions/restart-dss")
        none none none none with
    | mk x tt =>
        have h2 := htr ("/instances/" ++ pyStr i.id ++ "/actions/restart-dss")
        rw [hP] at h2
        cases x <;> simpa using h2
  · unfold FMInstance.delete
    cases hP : i.client.perform_tenant_json srv "GET"
        ("/instances/" ++ pyStr i.id ++ "/actions/delete")
        none none none none with
    | mk x tt =>
        have h2 := htr ("/instances/" ++ pyStr i.id ++ "/actions/delete")
        rw [hP] at h2
        cases x <;> simpa using h2
  · intro j
    rw [FMInstance.save_spec]
    by_cases hput : raisesForStatus ((srv (instancePutReq j)).status) = true
    · rw [if_pos hput, if_pos hput]
    · rw [if_neg hput, if_neg hput]
      by_cases hget : raisesForStatus ((srv (instanceGetReq j)).status) = true
      · rw [if_pos hget]
      · rw [if_neg hget]
        cases hj : (srv (instanceGetReq j)).jsonBody <;> rfl
  · intro fs hobj
    refine ⟨?_, ?_, ?_, ?_⟩
    · unfold FMInstance.set_automated_snapshots
      rw [hobj]
      simp [jsonSetItem]
    · unfold FMInstance.set_custom_certificate
      rw [hobj]
      simp [jsonSetItem]
    · unfold FMAWSInstance.set_elastic_ip
      rw [hobj]
      simp [jsonSetItem]
    · unfold FMAzureInstance.set_elastic_ip
      rw [hobj]
      simp [jsonSetItem]

/-- The dict of `i0`'s snapshot. -/
def fs0 : JsonFields := .cons "id" (.str "i1") .nil

/-- Witness for C6 at a concrete input: `set_automated_snapshots` on `i0`
against `srvOK` issues exactly the trace of the underlying `save`. -/
theorem action_methods_request_traces_witness :
    (i0.set_automated_snapshots srvOK (.bool true) (.num 24) (.num 0)).2 =
      (FMInstance.save { i0 with instance_data := .obj (dset (dset (dset fs0
        "enableAutomatedSnapshot" (.bool true)) "automatedSnapshotPeriod" (.num 24))
        "automatedSnapshotRetention" (.num 0)) } srvOK).2 :=
  ((action_methods_request_traces i0 srvOK (.bool true) (.num 24) (.num 0)
    (.str "pem") (.bool true) (.str "a") (.str "p")).2.2.2.2.2 fs0 rfl).1

/-- Counterexample to C6 as stated: one `set_automated_snapshots` call
issues two outbound requests, not one. -/
theorem set_method_two_requests_counterexample :
    ((i0.set_automated_snapshots srvOK (.bool true) (.num 24) (.num 0)).2).length = 2 :=
  rfl

/-- C3: evaluation of the code at a server response `[{"id": "i1"}]`:
`list_instances` builds `FMInstance(self, **x)`, so the dict expands into
the keyword `id`, which `FMInstance.__init__` does not accept — TypeError
— while `get_instance` on the very same object builds the expected
handle. -/
theorem list_instances_kwargs_expansion_bug :
    (c0.list_instances srvList).1 =
      .error (.typeError "got an unexpected keyword argument") ∧
    (c0.list_instances srvList).2 =
      [c0.mkRequest "GET" "/tenants/main/instances" none none false none none] ∧
    (c0.get_instance srvObj "i1").1 =
      .ok { client := c0, instance_data := .obj (.cons "id" (.str "i1") .nil),
            id := .str "i1" } :=
  ⟨rfl, rfl, rfl⟩

/-- C4: evaluation of the code: `create()` POSTs the accumulated data
once, but wraps the response as `FMInstanceSettingsTemplate(self, ...)`,
so the returned handle holds the creator object — not the `FMClient` —
in its `client` slot, and `save()` / `delete()` on it raise
AttributeError without performing any HTTP call. -/
theorem create_passes_creator_as_client_bug :
    cr0.create srvIst =
      (.ok { client := .creator cr0, id := .str "ist-1",
             ist_data := .obj (.cons "id" (.str "ist-1") .nil) },
       [c0.mkRequest "POST" "/tenants/main/instance-settings-templates" none
         (some (.obj (.cons "label" (.str "t") .nil))) false none none]) ∧
    FMInstanceSettingsTemplate.save
      { client := .creator cr0, id := .str "ist-1",
        ist_data := .obj (.cons "id" (.str "ist-1") .nil) } srvIst =
      (.error (.attributeError
        "FMAWSInstanceSettingsTemplateCreator object has no attribute _perform_tenant_empty"),
       []) ∧
    FMInstanceSettingsTemplate.delete
      { client := .creator cr0, id := .str "ist-1",
        ist_data := .obj (.cons "id" (.str "ist-1") .nil) } srvIst =
      (.error (.attributeError
        "FMAWSInstanceSettingsTemplateCreator object has no attribute _perform_tenant_json"),
       []) :=
  ⟨rfl, rfl, rfl⟩
